import Mathlib

/-!
Verification development for the financial-research-agent orchestration core.

Python text values are embedded as `List Char`; each LLM / agent call is an
explicit oracle argument (`Except` distinguishes an exception from a returned
value), so every function below is the pure part of the corresponding Python
function in `src/flow.py`, `src/main.py` or `src/visualization_extractor.py`.
-/

namespace FinAgent

/-- Embedded Python string: a list of characters. -/
abbrev Str := List Char

/-- The apostrophe character (written via its code point to keep source plain). -/
def apos : Char := Char.ofNat 39

/-- Python `str.lower()` (per-character lowering). -/
def pyLower (s : Str) : Str := s.map Char.toLower

/-- Characters treated as whitespace by Python `str.strip()`. -/
def pyIsWs (c : Char) : Bool :=
  c = ' ' || c = '\t' || c = '\n' || c = '\r' || c = Char.ofNat 11 || c = Char.ofNat 12

/-- Strip characters satisfying `p` from both ends of a string. -/
def stripBoth (p : Char → Bool) (s : Str) : Str :=
  ((s.dropWhile p).reverse.dropWhile p).reverse

/-- Python `str.strip()` (whitespace from both ends). -/
def pyStripWs (s : Str) : Str := stripBoth pyIsWs s

/-- Python `str.strip("- ")` (dashes and spaces from both ends). -/
def pyStripDashSpace (s : Str) : Str := stripBoth (fun c => c = '-' || c = ' ') s

/-- Boolean test that `pre` is a leading segment of `s`. -/
def isPrefOf : Str → Str → Bool
  | [], _ => true
  | _ :: _, [] => false
  | a :: as, b :: bs => a = b && isPrefOf as bs

/-- Python `needle in hay` substring test. -/
def strContains (hay needle : Str) : Bool :=
  match hay with
  | [] => needle.isEmpty
  | _ :: t => isPrefOf needle hay || strContains t needle

/-- Decimal rendering of a natural number (for the Q/A transcript numbering). -/
def natToStr (n : Nat) : Str := Nat.toDigits 10 n

/-- Join a list of strings with a separator, like Python `sep.join(xs)`. -/
def joinSep (sep : Str) : List Str → Str
  | [] => []
  | [x] => x
  | x :: xs => x ++ sep ++ joinSep sep xs

/-- Python `s.replace(old, new)`: replace every non-overlapping occurrence,
scanning left to right. For `old = []` Python inserts everywhere; that case is
never exercised here and is modelled as the identity. -/
def pyReplace (s old new : Str) : Str :=
  match h : old with
  | [] => s
  | _ :: _ =>
    match s with
    | [] => []
    | c :: t =>
      if isPrefOf old (c :: t) then new ++ pyReplace ((c :: t).drop old.length) old new
      else c :: pyReplace t old new
termination_by s.length
decreasing_by
  · subst h
    simp [List.length_drop]
    omega
  · simp

/-- A question/answer pair as produced by `process_query` in `src/flow.py`
(a Python 2-tuple `(question, answer)`). -/
abbrev QAPair := Str × Str

/-! ## GapAnalyzer: `check_missing_parts` (src/flow.py lines 146-194) -/

/-- The line post-processing of `check_missing_parts`:
`[line.strip("- ").strip() for line in missing_info.split("\n") if line.strip()]`. -/
def processMissingInfo (missing_info : Str) : List Str :=
  ((missing_info.splitOn '\n').filter (fun l => !(pyStripWs l).isEmpty)).map
    (fun l => pyStripWs (pyStripDashSpace l))

/-- `check_missing_parts` from `src/flow.py`: the Completion Service response is
the oracle argument (`.error` = the chain raised). On exception it returns `[]`;
if `"none" in missing_info.lower()` it returns `[]`; otherwise the stripped
non-blank lines. -/
def check_missing_parts (resp : Except Unit Str) : List Str :=
  match resp with
  | .error _ => []
  | .ok missing_info =>
    if strContains (pyLower missing_info) "none".data then []
    else processMissingInfo missing_info

/-! ## QueryDecomposer: `decompose_query` (src/flow.py lines 55-144) -/

/-- One decomposed sub-query record, as produced by the JSON parse in
`decompose_query`. -/
structure SubQuery where
  sub_query : Str
  focus : Str
  entities : List Str
  priority : Int
deriving DecidableEq

/-- The fallback record `{"sub_query": original_query, "focus": "general",
"entities": [], "priority": 10}` from `decompose_query`. -/
def fallbackSubQuery (q : Str) : SubQuery :=
  { sub_query := q, focus := "general".data, entities := [], priority := 10 }

/-- Stable descending insertion by priority (ties keep original order),
matching Python `sorted(xs, key=priority, reverse=True)`. -/
def insertDesc (x : SubQuery) : List SubQuery → List SubQuery
  | [] => [x]
  | y :: ys => if y.priority < x.priority then x :: y :: ys else y :: insertDesc x ys

/-- Stable descending sort by priority. -/
def sortByPriorityDesc (l : List SubQuery) : List SubQuery :=
  l.foldl (fun acc x => insertDesc x acc) []

/-- `decompose_query` from `src/flow.py`. Oracle: `.error` = the Completion
Service chain raised; `.ok none` = the parsed result was falsy or had no
`"sub_queries"` key; `.ok (some l)` = it had `"sub_queries": l`. -/
def decompose_query (original_query : Str)
    (resp : Except Unit (Option (List SubQuery))) : List SubQuery :=
  match resp with
  | .error _ => [fallbackSubQuery original_query]
  | .ok none => [fallbackSubQuery original_query]
  | .ok (some sub_queries) => sortByPriorityDesc sub_queries

/-! ## ResponseMerger: `merge_responses` and `post_process_response`
(src/flow.py lines 287-547) -/

/-- The lowercase i-dont-know literal (built without a quoted apostrophe character). -/
def iDontKnow : Str := "i don".data ++ [apos] ++ "t know".data

/-- The filter applied by `merge_responses`: keep a pair iff its answer is
non-empty (truthy) and its lowercased answer does not start with
the i-dont-know phrase. -/
def validAnswer (a : Str) : Bool :=
  !a.isEmpty && !(isPrefOf iDontKnow (pyLower a))

/-- `valid_pairs` of `merge_responses`. -/
def validPairs (qa_pairs : List QAPair) : List QAPair :=
  qa_pairs.filter (fun p => validAnswer p.2)

/-- The transcript lines `Question i: ...` / `Answer i: ...` (0-based index
argument; Python enumerates from 0 and prints `i+1`). -/
def qaChunks : Nat → List QAPair → List Str
  | _, [] => []
  | i, (q, a) :: rest =>
    ("Question ".data ++ natToStr (i + 1) ++ ": ".data ++ q)
      :: ("Answer ".data ++ natToStr (i + 1) ++ ": ".data ++ a)
      :: qaChunks (i + 1) rest

/-- `qa_text = "\n\n".join(formatted_pairs)` from `merge_responses`. -/
def qaText (pairs : List QAPair) : Str := joinSep ['\n', '\n'] (qaChunks 0 pairs)

/-- The fixed apology returned when no valid pairs remain. -/
def apologyMsg : Str :=
  "I don".data ++ [apos] ++
    "t have enough information to provide a comprehensive answer to your query about financial data.".data

/-- The bulleted fallback built when the synthesis call raises. -/
def mergeFallback (valid : List QAPair) : Str :=
  valid.foldl (fun acc p => acc ++ "• ".data ++ p.2 ++ ['\n', '\n'])
    ("Here".data ++ [apos] ++ "s what I found:".data ++ ['\n', '\n'])

/-- The Q&A marker list from `post_process_response`. -/
def qaIndicators : List Str :=
  ["Q:".data, "Question:".data, "A:".data, "Answer:".data,
   '\n' :: "Q.".data, '\n' :: "Question.".data, '\n' :: "A.".data, '\n' :: "Answer.".data]

/-- `has_qa_format` from `post_process_response`. -/
def hasQaFormat (s : Str) : Bool := qaIndicators.any (fun ind => strContains s ind)

/-- The manual fallback cleanup: replace each indicator by the empty string,
in list order. -/
def stripIndicators (s : Str) : Str :=
  qaIndicators.foldl (fun acc ind => pyReplace acc ind []) s

/-- `post_process_response` from `src/flow.py`: the reformatting call happens
only when a Q&A marker is present (falling back to textual stripping if it
raises); the verification call always happens and its failure returns the
pre-verification text. -/
def post_process_response (response : Str) (reformatResp verifyResp : Except Unit Str) : Str :=
  let r1 :=
    if hasQaFormat response then
      match reformatResp with
      | .ok r => r
      | .error _ => stripIndicators response
    else response
  match verifyResp with
  | .ok v => v
  | .error _ => r1

/-- Result of `merge_responses`, instrumented with the transcript passed to the
synthesis Completion Service call (`none` when no synthesis call was made) and
with the list of pairs that survived the filter. -/
structure MergeOutcome where
  response : Str
  synthInput : Option Str
  validUsed : List QAPair
deriving DecidableEq

/-- `merge_responses` from `src/flow.py`. In this embedding every `qa_pairs`
entry is already a `(question, answer)` tuple, so the tuple/dict conversion is
the identity. Oracles: the synthesis chain, then the two calls inside
`post_process_response`. -/
def merge_responses (qa_pairs : List QAPair)
    (synthResp reformatResp verifyResp : Except Unit Str) : MergeOutcome :=
  let valid := validPairs qa_pairs
  if valid.isEmpty then
    { response := apologyMsg, synthInput := none, validUsed := valid }
  else
    let t := qaText valid
    match synthResp with
    | .ok merged =>
      { response := post_process_response merged reformatResp verifyResp,
        synthInput := some t, validUsed := valid }
    | .error _ =>
      { response := mergeFallback valid, synthInput := some t, validUsed := valid }

/-! ## ParallelDispatcher: `process_query` and `process_queries_in_parallel`
(src/flow.py lines 196-285) -/

/-- The stock-related terms scanned by `process_query`. -/
def stockTerms : List Str :=
  ["stock".data, "price".data, "share".data, "market cap".data, "p/e".data,
   "eps".data, "dividend".data, "ticker".data, "stock price".data, "shares".data,
   "valuation".data, "trading at".data, "worth".data]

/-- The `company_name_mapping` dict of `process_query`, in insertion order. -/
def companyMap : List (Str × Str) :=
  [("apple".data, "AAPL".data), ("microsoft".data, "MSFT".data),
   ("google".data, "GOOGL".data), ("alphabet".data, "GOOGL".data),
   ("amazon".data, "AMZN".data), ("tesla".data, "TSLA".data),
   ("meta".data, "META".data), ("facebook".data, "META".data),
   ("netflix".data, "NFLX".data), ("nvidia".data, "NVDA".data),
   ("walmart".data, "WMT".data), ("jpmorgan".data, "JPM".data),
   ("jp morgan".data, "JPM".data), ("bank of america".data, "BAC".data),
   ("disney".data, "DIS".data), ("coca cola".data, "KO".data),
   ("coca-cola".data, "KO".data), ("intel".data, "INTC".data),
   ("amd".data, "AMD".data), ("advanced micro devices".data, "AMD".data)]

/-- The pre-processing in `process_query`: for a stock-related query whose
lowercase text mentions a mapped company, append the ticker hint (first match
in dict insertion order, then `break`). -/
def enhanceQuery (query : Str) : Str :=
  let lower := pyLower query
  let is_stock := stockTerms.any (fun t => strContains lower t)
  if is_stock then
    match companyMap.find? (fun p => strContains lower p.1) with
    | some p =>
      query ++ " (Use the Stock Info Tool with ticker ".data ++ [apos] ++ p.2
        ++ [apos] ++ " to answer this query)".data
    | none => query
  else query

/-- The error answer text built by the `except` branch of `process_query`. -/
def errAnswer (e : Str) : Str := "Error processing your request. ".data ++ e

/-- `process_query` from `src/flow.py`. The agent is an oracle from the
(possibly enhanced) query to either an answer or a raised exception message;
the `except` branch converts the exception into the error answer. -/
def process_query (ag : Str → Except Str Str) (query : Str) : QAPair :=
  let q1 := enhanceQuery query
  match ag q1 with
  | .ok out => (q1, out)
  | .error e => (q1, errAnswer e)

/-- `process_queries_in_parallel` from `src/flow.py`: every submitted query
yields exactly one pair (each task catches its own exceptions inside
`process_query`, so the outer `except` never fires), collected in submission
order of the futures dict. -/
def process_queries_in_parallel (ag : Str → Except Str Str) (queries : List Str) :
    List QAPair :=
  queries.map (process_query ag)

/-! ## JSON values (for visualization payloads and result dicts) -/

/-- A parsed JSON / Python value. Object keys are Lean `String`s (they are
always literals in the code); embedded text payloads are `Str`. -/
inductive JVal where
  | jnull
  | jbool (b : Bool)
  | jnum (n : Int)
  | jstr (s : Str)
  | jarr (xs : List JVal)
  | jobj (kvs : List (String × JVal))

/-- First value bound to key `k`, like Python dict lookup. -/
def jlookup (k : String) : List (String × JVal) → Option JVal
  | [] => none
  | (k', v) :: t => if k' = k then some v else jlookup k t

/-- Python `d.get(k, default)` on the key/value list of an object. -/
def jget (k : String) (d : JVal) (kvs : List (String × JVal)) : JVal :=
  (jlookup k kvs).getD d

/-- Python `d.get(k, [])` on a `JVal` that is expected to be an object. -/
def jvGet (k : String) : JVal → JVal
  | .jobj kvs => jget k (.jarr []) kvs
  | _ => .jarr []

/-- Keys of an object value, in order. -/
def jkeys : JVal → List String
  | .jobj kvs => kvs.map Prod.fst
  | _ => []

/-- Python truthiness of a value. -/
def jfalsy : JVal → Bool
  | .jnull => true
  | .jbool b => !b
  | .jnum n => n = 0
  | .jstr s => s.isEmpty
  | .jarr xs => xs.isEmpty
  | .jobj kvs => kvs.isEmpty

/-- Number of elements of a sliceable value (array or string). -/
def vlen : JVal → Nat
  | .jarr xs => xs.length
  | .jstr s => s.length
  | .jobj kvs => kvs.length
  | _ => 0

/-- Whether a value is a JSON object (Python dict). -/
def vIsObj : JVal → Bool
  | .jobj _ => true
  | _ => false

/-- Python `len(v)` succeeds only on strings, lists and dicts; on other values
it raises `TypeError`. -/
def lenOk : JVal → Bool
  | .jstr _ => true
  | .jarr _ => true
  | .jobj _ => true
  | _ => false

/-- Python slicing `v[:n]`: defined for lists and strings, raises (`none`)
otherwise. -/
def pySlice : JVal → Nat → Option JVal
  | .jarr xs, n => some (.jarr (xs.take n))
  | .jstr s, n => some (.jstr (s.take n))
  | _, _ => none

/-- The dict `{"tables": [], "graphs": []}`. -/
def emptyVizObj : JVal := .jobj [("tables", .jarr []), ("graphs", .jarr [])]

/-! ## `extract_visualizations` in `src/flow.py` (lines 767-838) -/

/-- `extract_visualizations` from `src/flow.py`: oracle `.error` covers a chain
exception (including unparseable JSON, since the JSON parser runs inside the
chain). A non-dict result is replaced by the empty dict; a dict is returned
**as is** (no truncation, no key defaulting) unless `len()` raises on one of
the two logged values, which lands in the `except` branch. -/
def extract_visualizations (resp : Except Unit JVal) : JVal :=
  match resp with
  | .error _ => emptyVizObj
  | .ok v =>
    match v with
    | .jobj kvs =>
      if lenOk (jget "tables" (.jarr []) kvs) && lenOk (jget "graphs" (.jarr []) kvs) then
        .jobj kvs
      else emptyVizObj
    | _ => emptyVizObj

/-! ## `src/visualization_extractor.py` -/

namespace VizExtractor

/-- Result dict `{"tables": ..., "graphs": ...}` of the standalone extractor. -/
structure VizResult where
  tables : JVal
  graphs : JVal

/-- `extract_visualizations` from `src/visualization_extractor.py`. Oracle:
outer `.error` = the API call raised; inner `.error` = `json.loads` failed
(`JSONDecodeError`); otherwise the parsed value. A non-dict parse yields the
empty result; missing keys default to `[]`; both values are sliced to the
maxima (slicing a non-sliceable value raises and is caught by the outer
`except`, yielding the empty result). -/
def extract_visualizations (resp : Except Unit (Except Unit JVal))
    (max_tables max_graphs : Nat) : VizResult :=
  match resp with
  | .error _ => ⟨.jarr [], .jarr []⟩
  | .ok (.error _) => ⟨.jarr [], .jarr []⟩
  | .ok (.ok v) =>
    match v with
    | .jobj kvs =>
      match pySlice (jget "tables" (.jarr []) kvs) max_tables,
            pySlice (jget "graphs" (.jarr []) kvs) max_graphs with
      | some t, some g => ⟨t, g⟩
      | _, _ => ⟨.jarr [], .jarr []⟩
    | _ => ⟨.jarr [], .jarr []⟩

end VizExtractor

/-! ## RetryScheduler: `run_agent_loop` (src/flow.py lines 549-765) -/

/-- The oracle bundle for one `run_agent_loop` call: the decomposition parse,
the agent, the gap-checker responses (indexed by call order), the synthesis
chain, the two post-processing chains, and the flow visualization chain. -/
structure FlowOracles where
  decompResp : Except Unit (Option (List SubQuery))
  agentResp : Str → Except Str Str
  gapResp : Nat → Except Unit Str
  synthResp : Except Unit Str
  reformatResp : Except Unit Str
  verifyResp : Except Unit Str
  vizResp : Except Unit JVal

/-- The follow-up enqueueing of the sequential loop:
`for part in more_missing: if part not in seen: to_ask.append(part); seen.add(part)`.
Returns the updated `(to_ask, seen)`. -/
def enqueueNew (seen to_ask : List Str) : List Str → List Str × List Str
  | [] => (to_ask, seen)
  | p :: ps =>
    if p ∈ seen then enqueueNew seen to_ask ps
    else enqueueNew (p :: seen) (to_ask ++ [p]) ps

/-- The end-of-iteration gap re-check of the sequential loop: it only runs when
more iterations remain (`iteration < remaining_iterations - 1`) and the queue is
non-empty. Returns the updated `(to_ask, seen, gap-call counter)`. -/
def seqUpdate (gp : Nat → Except Unit Str) (fuel k : Nat) (rest seen : List Str) :
    List Str × List Str × Nat :=
  if fuel ≠ 0 && !rest.isEmpty then
    let ts := enqueueNew seen rest (check_missing_parts (gp k))
    (ts.1, ts.2, k + 1)
  else (rest, seen, k)

/-- State carried out of the sequential retry loop, instrumented with `disp`,
the questions dispatched by the loop in order, and `k`, the gap-checker call
counter. -/
structure SeqOut where
  qa : List QAPair
  seen : List Str
  answered : List Str
  disp : List Str
  k : Nat
deriving DecidableEq

/-- The sequential retry loop of `run_agent_loop`
(`for iteration in range(remaining_iterations): ...`): pop the head of
`to_ask`, add it to `seen`, dispatch it, then (except in the last iteration,
and only when the queue is non-empty) re-run the gap checker and enqueue
not-yet-seen follow-ups. -/
def seqLoop (gp : Nat → Except Unit Str) (ag : Str → Except Str Str) :
    Nat → Nat → List Str → List Str → List QAPair → List Str → SeqOut
  | 0, k, _, seen, qa, ans => ⟨qa, seen, ans, [], k⟩
  | fuel + 1, k, to_ask, seen, qa, ans =>
    match to_ask with
    | [] => ⟨qa, seen, ans, [], k⟩
    | current :: rest =>
      let seen1 := current :: seen
      let qa1 := qa ++ [process_query ag current]
      let ans1 := ans ++ [current]
      let u := seqUpdate gp fuel k rest seen1
      let out := seqLoop gp ag fuel u.2.2 u.1 u.2.1 qa1 ans1
      ⟨out.qa, out.seen, out.answered, current :: out.disp, out.k⟩

/-- The dict returned by `run_agent_loop`, instrumented with `dispatched` (all
queries passed to `process_query`, in order) and `seqDispatched` (those from
the sequential retry loop). -/
structure RunOutcome where
  query : Str
  response : Str
  sub_queries : List Str
  qa_pairs : List QAPair
  graphs : JVal
  tables : JVal
  metadata : JVal
  dispatched : List Str
  seqDispatched : List Str

/-- The common tail of both branches of `run_agent_loop`: merge the pairs,
extract visualizations, and build the result dict. -/
def finishRun (fo : FlowOracles) (original_query : Str) (sub_queries : List SubQuery)
    (metadata : JVal) (qa : List QAPair) (dispatched seqDisp : List Str) : RunOutcome :=
  let mo := merge_responses qa fo.synthResp fo.reformatResp fo.verifyResp
  let viz := extract_visualizations fo.vizResp
  { query := original_query, response := mo.response,
    sub_queries := sub_queries.map (·.sub_query), qa_pairs := qa,
    graphs := jvGet "graphs" viz, tables := jvGet "tables" viz,
    metadata := if jfalsy metadata then .jobj [] else metadata,
    dispatched := dispatched, seqDispatched := seqDisp }

/-- The branch test of `run_agent_loop`:
`len(sub_queries) == 1 and sub_queries[0]["sub_query"] == query`. -/
def singleCond (sub_queries : List SubQuery) (query : Str) : Bool :=
  match sub_queries with
  | [sq] => sq.sub_query = query
  | _ => false

/-- `run_agent_loop` from `src/flow.py`. Single-sub-query branch: dispatch the
main query, run the gap checker once; if it found gaps, add them to `seen` and
dispatch the whole batch in parallel, then (when `max_retries - 2 > 0`) run the
gap checker again, filter through `seen`, and enter the sequential retry loop.
Decomposed branch: dispatch priority ≥ 8 sub-queries sequentially, the rest in
parallel, then one final gap batch. -/
def run_agent_loop (fo : FlowOracles) (query original_query : Str)
    (max_retries : Nat) (metadata : JVal) : RunOutcome :=
  let sub_queries := decompose_query query fo.decompResp
  if singleCond sub_queries query then
    let qa0 := [process_query fo.agentResp query]
    let missing := check_missing_parts (fo.gapResp 0)
    if missing.isEmpty then
      finishRun fo original_query sub_queries metadata qa0 [query] []
    else
      let seen1 := missing ++ [query]
      let newPairs := process_queries_in_parallel fo.agentResp missing
      let qa1 := qa0 ++ newPairs
      let ans1 := query :: newPairs.map (·.1)
      let remaining := max_retries - 2
      if remaining = 0 then
        finishRun fo original_query sub_queries metadata qa1 (query :: missing) []
      else
        let still := check_missing_parts (fo.gapResp 1)
        let to_ask := still.filter (fun p => decide (p ∉ seen1))
        let so := seqLoop fo.gapResp fo.agentResp remaining 2 to_ask seen1 qa1 ans1
        finishRun fo original_query sub_queries metadata so.qa
          (query :: (missing ++ so.disp)) so.disp
  else
    let highs := (sub_queries.filter (fun sq => decide (8 ≤ sq.priority))).map (·.sub_query)
    let qaH := highs.map (process_query fo.agentResp)
    let rem := (sub_queries.filter (fun sq => decide (sq.priority < 8))).map (·.sub_query)
    let qa1 := qaH ++ process_queries_in_parallel fo.agentResp rem
    let still := check_missing_parts (fo.gapResp 0)
    let qa2 := if still.isEmpty then qa1
               else qa1 ++ process_queries_in_parallel fo.agentResp still
    finishRun fo original_query sub_queries metadata qa2
      (highs ++ rem ++ (if still.isEmpty then [] else still)) []

/-! ## `src/main.py`: `check_query_safety` and `process_query` -/

namespace MainMod

/-- The dict returned by `check_query_safety`. -/
structure SafetyResult where
  is_safe : Bool
  refined_query : Option Str
deriving DecidableEq

/-- `check_query_safety` from `src/main.py`: on a Completion Service exception
it returns the original input marked safe; an empty (stripped) response marks
the query unsafe; otherwise the stripped response is the refined query. -/
def check_query_safety (user_input : Str) (resp : Except Unit Str) : SafetyResult :=
  match resp with
  | .error _ => { is_safe := true, refined_query := some user_input }
  | .ok t =>
    let refined := pyStripWs t
    if refined.isEmpty then { is_safe := false, refined_query := none }
    else { is_safe := true, refined_query := some refined }

/-- The `visualization_options` dict of `main.process_query`. -/
structure VizOptions where
  include_tables : Bool
  include_graphs : Bool
  max_tables : Nat
  max_graphs : Nat

/-- The defaults substituted when `visualization_options is None`. -/
def defaultVizOptions : VizOptions :=
  { include_tables := true, include_graphs := true, max_tables := 5, max_graphs := 3 }

/-- Result of `main.process_query`, instrumented with the query passed to
`run_agent_loop` (`none` when the query was rejected before the agent ran). -/
structure MainOutcome where
  result : JVal
  loopQuery : Option Str

/-- `process_query` from `src/main.py`: safety check, then the agent loop with
`max_retries=5` and `metadata={}` on the **original** user input, then the
result dict `{status, query, response, metadata, graphs, tables}`, with a
secondary visualization extraction that only fills in whichever of
`graphs`/`tables` is empty. -/
def process_query (user_input : Str) (safetyResp : Except Unit Str)
    (fo : FlowOracles) (veResp : Except Unit (Except Unit JVal))
    (visualization_options : Option VizOptions) : MainOutcome :=
  let opts := visualization_options.getD defaultVizOptions
  let s := check_query_safety user_input safetyResp
  if !s.is_safe then
    { result := .jobj [("status", .jstr "rejected".data),
        ("reason", .jstr "Query contains harmful content".data),
        ("response", .jnull), ("graphs", .jarr []), ("tables", .jarr [])],
      loopQuery := none }
  else
    let ar := run_agent_loop fo user_input user_input 5 (.jobj [])
    let g0 := ar.graphs
    let t0 := ar.tables
    let tg :=
      if (opts.include_tables || opts.include_graphs) && (jfalsy g0 || jfalsy t0) then
        let vz := VizExtractor.extract_visualizations veResp opts.max_tables opts.max_graphs
        (if opts.include_tables && jfalsy t0 then vz.tables else t0,
         if opts.include_graphs && jfalsy g0 then vz.graphs else g0)
      else (t0, g0)
    { result := .jobj [("status", .jstr "success".data), ("query", .jstr user_input),
        ("response", .jstr ar.response), ("metadata", ar.metadata),
        ("graphs", tg.2), ("tables", tg.1)],
      loopQuery := some user_input }

end MainMod

/-! ## Concrete oracle bundles used by the counterexample evaluations -/

/-- Oracles for the duplicate-dispatch run: decomposition raises (fallback
keeps the single-query branch), the first gap check returns exactly the main
query again, later gap checks return `"none"`. -/
def dupOracles : FlowOracles :=
  { decompResp := .error ()
  , agentResp := fun _ => .ok "ans".data
  , gapResp := fun n => if n = 0 then .ok "what is X".data else .ok "none".data
  , synthResp := .ok "m".data
  , reformatResp := .ok "r".data
  , verifyResp := .ok "v".data
  , vizResp := .error () }

/-- Oracles for a quiet single-query run: no gaps are ever reported. -/
def quietOracles : FlowOracles :=
  { decompResp := .error ()
  , agentResp := fun _ => .ok "ans".data
  , gapResp := fun _ => .ok "none".data
  , synthResp := .ok "m".data
  , reformatResp := .ok "r".data
  , verifyResp := .ok "v".data
  , vizResp := .error () }

/-- A flow visualization payload holding five tables and no graphs. -/
def fiveTablesObj : JVal :=
  .jobj [("tables", .jarr [.jnum 1, .jnum 2, .jnum 3, .jnum 4, .jnum 5]),
         ("graphs", .jarr [])]

/-- Oracles for a quiet run whose flow visualization chain yields five tables. -/
def fiveTablesOracles : FlowOracles :=
  { decompResp := .error ()
  , agentResp := fun _ => .ok "ans".data
  , gapResp := fun _ => .ok "none".data
  , synthResp := .ok "m".data
  , reformatResp := .ok "r".data
  , verifyResp := .ok "v".data
  , vizResp := .ok fiveTablesObj }

/-- The two-pair input of the merge-filtering example from the spec. -/
def mergeExamplePairs : List QAPair :=
  [("q1".data, "Paris is the capital".data), ("q2".data, "unable to answer this".data)]

/-! # Theorems -/

/-- In every branch of `merge_responses`, the pairs used for synthesis are
exactly the filtered `valid_pairs`. -/
theorem merge_responses_validUsed (qa : List QAPair) (s r v : Except Unit Str) :
    (merge_responses qa s r v).validUsed = validPairs qa := by
  simp only [merge_responses]
  split
  · rfl
  · split <;> rfl

/-- The transcript handed to the synthesis call is the formatted filtered
pairs, and no call is made exactly when the filter left nothing. -/
theorem merge_responses_synthInput (qa : List QAPair) (s r v : Except Unit Str) :
    (merge_responses qa s r v).synthInput =
      if (validPairs qa).isEmpty then none else some (qaText (validPairs qa)) := by
  simp only [merge_responses]
  split
  · simp_all
  · split <;> simp_all

/-- C1 (amended): `merge_responses` does not filter by the failure-phrase list
given in the spec; the filter drops exactly the pairs whose answer is empty or
starts (case-insensitively) with the i-dont-know phrase, and the synthesis
transcript is built from the surviving pairs. -/
theorem claim1_amended (qa : List QAPair) (s r v : Except Unit Str) :
    (∀ p ∈ qa, (p.2.isEmpty = true ∨ isPrefOf iDontKnow (pyLower p.2) = true) →
      p ∉ (merge_responses qa s r v).validUsed) ∧
    (merge_responses qa s r v).synthInput =
      (if (validPairs qa).isEmpty then none else some (qaText (validPairs qa))) := by
  refine ⟨?_, merge_responses_synthInput qa s r v⟩
  intro p _ hbad hmem
  rw [merge_responses_validUsed] at hmem
  have hval := (List.mem_filter.mp hmem).2
  simp only [validAnswer, Bool.and_eq_true, Bool.not_eq_true'] at hval
  rcases hbad with h | h
  · rw [h] at hval
    exact absurd hval.1 (by simp)
  · rw [h] at hval
    exact absurd hval.2 (by simp)

/-- Witness for C1 (amended): a pair with an empty answer is excluded. -/
theorem claim1_amended_witness :
    ("q".data, ([] : Str)) ∉
      (merge_responses [("q".data, ([] : Str))]
        (.ok "m".data) (.ok "r".data) (.ok "v".data)).validUsed :=
  (claim1_amended [("q".data, ([] : Str))] (.ok "m".data) (.ok "r".data) (.ok "v".data)).1
    ("q".data, ([] : Str)) (by decide) (Or.inl (by decide))

/-- C1 (counterexample): on the example given by the spec, the pair whose answer is
"unable to answer this" survives the filter and its text appears verbatim in
the transcript passed to the synthesis call, so it is not excluded. -/
theorem claim1_counterexample :
    ("q2".data, "unable to answer this".data) ∈
      (merge_responses mergeExamplePairs
        (.ok "m".data) (.ok "r".data) (.ok "v".data)).validUsed ∧
    strContains
      ((merge_responses mergeExamplePairs
        (.ok "m".data) (.ok "r".data) (.ok "v".data)).synthInput.getD [])
      "unable to answer this".data = true := by
  constructor
  · decide
  · decide

/-- C4 (counterexample): a response that merely contains "none" as a substring
(here inside "nonetheless") yields `[]`, although the response is not the
literal `"none"` and its stripped line list is non-empty. -/
theorem claim4_counterexample :
    check_missing_parts (.ok "Is there nonetheless a gap?".data) = [] ∧
    pyLower "Is there nonetheless a gap?".data ≠ "none".data ∧
    processMissingInfo "Is there nonetheless a gap?".data =
      ["Is there nonetheless a gap?".data] := by
  refine ⟨by decide, by decide, by decide⟩

/-- C4 (amended): `check_missing_parts` returns `[]` whenever the lowercased
response **contains** "none" as a substring (not only when it equals "none");
otherwise it returns the stripped non-blank lines, which is empty exactly when
every line is blank; on a Completion Service exception it returns `[]`. -/
theorem claim4_amended (s : Str) :
    (strContains (pyLower s) "none".data = true → check_missing_parts (.ok s) = []) ∧
    (strContains (pyLower s) "none".data = false →
      check_missing_parts (.ok s) = processMissingInfo s) ∧
    (check_missing_parts (.ok s) = [] ↔
      strContains (pyLower s) "none".data = true ∨
        ∀ l ∈ s.splitOn '\n', (pyStripWs l).isEmpty = true) ∧
    check_missing_parts (.error ()) = [] := by
  refine ⟨fun h => by simp [check_missing_parts, h],
          fun h => by simp [check_missing_parts, h], ?_, rfl⟩
  simp only [check_missing_parts]
  split
  · simp_all
  · rename_i h
    simp only [Bool.not_eq_true] at h
    simp [h, processMissingInfo, List.map_eq_nil_iff, List.filter_eq_nil_iff]

/-- Witness for C4 (amended): a response containing "NONE" inside other text
still yields the empty list. -/
theorem claim4_amended_witness :
    check_missing_parts (.ok "NONE detected".data) = [] :=
  (claim4_amended "NONE detected".data).1 (by decide)

/-- C5 (counterexample): when the parsed result is `{"sub_queries": []}`,
`decompose_query` returns the empty list, not the single fallback SubQuery the
claim requires. -/
theorem claim5_counterexample :
    decompose_query "q".data (.ok (some [])) = [] ∧
    fallbackSubQuery "q".data ∉ decompose_query "q".data (.ok (some [])) := by
  refine ⟨by decide, by decide⟩

/-- C5 (amended): `decompose_query` falls back to the single general/priority-10
SubQuery on a Completion Service exception or on a falsy/`sub_queries`-less
parse, but an **empty** `sub_queries` list is returned as the empty list (no
fallback); no case raises. -/
theorem claim5_amended (q : Str) :
    decompose_query q (.error ()) = [fallbackSubQuery q] ∧
    decompose_query q (.ok none) = [fallbackSubQuery q] ∧
    decompose_query q (.ok (some [])) = [] ∧
    (fallbackSubQuery q).sub_query = q ∧
    (fallbackSubQuery q).focus = "general".data ∧
    (fallbackSubQuery q).priority = 10 :=
  ⟨rfl, rfl, rfl, rfl, rfl, rfl⟩

/-- C7 (amended): the dispatcher yields exactly one pair per submitted
question, the pair of each question is present, and an agent exception is converted
into the answer text `"Error processing your request. <cause>"` (a period in
the code, not the colon the claim states). -/
theorem claim7_amended (ag : Str → Except Str Str) (queries : List Str) :
    (process_queries_in_parallel ag queries).length = queries.length ∧
    (∀ q ∈ queries, process_query ag q ∈ process_queries_in_parallel ag queries) ∧
    (∀ q e, ag (enhanceQuery q) = .error e → (process_query ag q).2 = errAnswer e) := by
  refine ⟨by simp [process_queries_in_parallel], ?_, ?_⟩
  · intro q hq
    simpa [process_queries_in_parallel] using List.mem_map_of_mem (process_query ag) hq
  · intro q e h
    simp [process_query, h]

/-- Witness for C7 (amended), at a one-question batch whose agent raises. -/
theorem claim7_amended_witness :
    (process_queries_in_parallel (fun _ => .error "x".data) ["a".data]).length = 1 ∧
    process_query (fun _ => .error "x".data) "a".data ∈
      process_queries_in_parallel (fun _ => .error "x".data) ["a".data] ∧
    (process_query (fun _ => .error "x".data) "a".data).2 = errAnswer "x".data := by
  have h := claim7_amended (fun _ => .error "x".data) ["a".data]
  exact ⟨h.1, h.2.1 "a".data (by decide), h.2.2 "a".data "x".data rfl⟩

/-- C7 (counterexample): the converted answer text uses a period, so it is not
the claimed `"Error processing your request: <cause>"`. -/
theorem claim7_counterexample :
    process_queries_in_parallel (fun _ => .error "boom".data) ["hello".data] =
      [("hello".data, errAnswer "boom".data)] ∧
    errAnswer "boom".data ≠ "Error processing your request: boom".data := by
  refine ⟨by decide, by decide⟩

/-- C9 (confirmed): when the filter leaves no valid pair, `merge_responses`
returns the fixed apology and performs no synthesis Completion Service call. -/
theorem claim9_theorem (qa : List QAPair) (s r v : Except Unit Str)
    (h : validPairs qa = []) :
    (merge_responses qa s r v).response = apologyMsg ∧
    (merge_responses qa s r v).synthInput = none := by
  simp [merge_responses, h]

/-- Elements already in `seen` never enter the queue, and `seen` only grows:
the invariant behind the enqueue-time dedup of the sequential loop. -/
theorem enqueueNew_inv (S : List Str) :
    ∀ (ps seen ta : List Str), (∀ q ∈ ta, q ∉ S) → (∀ q ∈ S, q ∈ seen) →
      (∀ q ∈ (enqueueNew seen ta ps).1, q ∉ S) ∧
      (∀ q ∈ S, q ∈ (enqueueNew seen ta ps).2) := by
  intro ps
  induction ps with
  | nil => intro seen ta h1 h2; exact ⟨h1, h2⟩
  | cons p ps ih =>
    intro seen ta h1 h2
    simp only [enqueueNew]
    split
    · exact ih seen ta h1 h2
    · rename_i hns
      apply ih
      · intro x hx
        rcases List.mem_append.mp hx with hx | hx
        · exact h1 x hx
        · have hxp : x = p := by simpa using hx
          subst hxp
          intro hxS
          exact hns (h2 x hxS)
      · intro x hx
        exact List.mem_cons_of_mem _ (h2 x hx)

/-- The sequential retry loop dispatches at most `fuel` questions. -/
theorem seqLoop_disp_length (gp : Nat → Except Unit Str) (ag : Str → Except Str Str) :
    ∀ (fuel k : Nat) (to_ask seen : List Str) (qa : List QAPair) (ans : List Str),
      (seqLoop gp ag fuel k to_ask seen qa ans).disp.length ≤ fuel := by
  intro fuel
  induction fuel with
  | zero => intro k ta sn qa ans; simp [seqLoop]
  | succ n ih =>
    intro k ta sn qa ans
    cases ta with
    | nil => simp [seqLoop]
    | cons c rest =>
      simp only [seqLoop, List.length_cons]
      exact Nat.succ_le_succ (ih _ _ _ _ _)

/-- C2 (amended): the `seen` dedup is enforced at enqueue time, not before each
dispatch; consequently no question belonging to a set `S` that is inside `seen`
and disjoint from the pending queue (e.g. the main query and the first-batch
questions when the sequential phase starts) is ever dispatched by the
sequential retry loop. -/
theorem claim2_amended (gp : Nat → Except Unit Str) (ag : Str → Except Str Str)
    (S : List Str) :
    ∀ (fuel k : Nat) (to_ask seen : List Str) (qa : List QAPair) (ans : List Str),
      (∀ q ∈ to_ask, q ∉ S) → (∀ q ∈ S, q ∈ seen) →
      ∀ q ∈ (seqLoop gp ag fuel k to_ask seen qa ans).disp, q ∉ S := by
  intro fuel
  induction fuel with
  | zero => intro k ta sn qa ans h1 h2 q hq; simp [seqLoop] at hq
  | succ n ih =>
    intro k ta sn qa ans h1 h2 q hq
    cases ta with
    | nil => simp [seqLoop] at hq
    | cons c rest =>
      simp only [seqLoop] at hq
      rcases List.mem_cons.mp hq with hqc | hq
      · subst hqc
        exact h1 q (List.mem_cons_self _ _)
      · have hcrest : ∀ x ∈ rest, x ∉ S := fun x hx => h1 x (List.mem_cons_of_mem _ hx)
        have hseen1 : ∀ x ∈ S, x ∈ c :: sn := fun x hx => List.mem_cons_of_mem _ (h2 x hx)
        simp only [seqUpdate] at hq
        split at hq
        · have hinv := enqueueNew_inv S (check_missing_parts (gp k)) (c :: sn) rest
            hcrest hseen1
          exact ih _ _ _ _ _ hinv.1 hinv.2 q hq
        · exact ih _ _ _ _ _ hcrest hseen1 q hq

/-- Witness for C2 (amended): a seen question (here `"a"`) is never dispatched
by the sequential loop when the queue starts disjoint from it. -/
theorem claim2_amended_witness :
    "a".data ∉ (seqLoop (fun _ => Except.error ()) (fun _ => Except.ok "ok".data)
      3 0 ["b".data] ["a".data] [] []).disp :=
  fun h =>
    claim2_amended (fun _ => Except.error ()) (fun _ => Except.ok "ok".data)
      ["a".data] 3 0 ["b".data] ["a".data] [] []
      (by decide) (by decide) "a".data h (by decide)

/-- C2 (counterexample): with gap output equal to the main query, the first
parallel batch re-dispatches it — two recorded questions are identical (also
after trimming), so the run-wide dedup invariant fails. -/
theorem claim2_counterexample :
    (run_agent_loop dupOracles "what is X".data "what is X".data 5
        (.jobj [])).qa_pairs.map (fun p => pyStripWs p.1) =
      ["what is X".data, "what is X".data] ∧
    ¬ ((run_agent_loop dupOracles "what is X".data "what is X".data 5
        (.jobj [])).qa_pairs.map (fun p => pyStripWs p.1)).Nodup := by
  refine ⟨by decide, by decide⟩

/-- Two complementary Boolean filters split the length of a list. -/
theorem length_filter_split {α : Type} (p q : α → Bool) (h : ∀ a, q a = !p a) :
    ∀ l : List α, (l.filter p).length + (l.filter q).length = l.length := by
  intro l
  induction l with
  | nil => rfl
  | cons a t ih =>
    by_cases hp : p a = true
    · simp [List.filter_cons, hp, h a]
      omega
    · have hp' : p a = false := by simpa using hp
      simp [List.filter_cons, hp', h a]
      omega

/-- On integers, `< 8` is the Boolean complement of `8 ≤`. -/
theorem decide_lt_eight (a : Int) : decide (a < 8) = !decide (8 ≤ a) := by
  rw [← decide_not, decide_eq_decide]
  exact lt_iff_not_le

/-- C3 (confirmed): the sequential retry phase dispatches at most
`max_retries` questions (in fact `max_retries - 2`), and a whole run dispatches
at most `1 + |sub-queries| + |first gap batch| + max_retries` questions — the
loop is bounded no matter how many follow-ups the gap checker proposes, and
`run_agent_loop` is a total function (termination). -/
theorem claim3_theorem (fo : FlowOracles) (q oq : Str) (mr : Nat) (md : JVal) :
    (run_agent_loop fo q oq mr md).seqDispatched.length ≤ mr ∧
    (run_agent_loop fo q oq mr md).dispatched.length ≤
      1 + (decompose_query q fo.decompResp).length
        + (check_missing_parts (fo.gapResp 0)).length
        + (check_missing_parts (fo.gapResp 1)).length + mr := by
  simp only [run_agent_loop]
  split
  · split
    · exact ⟨by simp [finishRun], by simp [finishRun]; omega⟩
    · split
      · exact ⟨by simp [finishRun], by simp [finishRun]; omega⟩
      · have hs := seqLoop_disp_length fo.gapResp fo.agentResp (mr - 2) 2
          ((check_missing_parts (fo.gapResp 1)).filter
            (fun p => decide (p ∉ check_missing_parts (fo.gapResp 0) ++ [q])))
          (check_missing_parts (fo.gapResp 0) ++ [q])
          ([process_query fo.agentResp q] ++
            process_queries_in_parallel fo.agentResp (check_missing_parts (fo.gapResp 0)))
          (q :: (process_queries_in_parallel fo.agentResp
            (check_missing_parts (fo.gapResp 0))).map (·.1))
        constructor
        · simp only [finishRun]
          omega
        · simp only [finishRun, List.length_cons, List.length_append]
          omega
  · have hsplit := length_filter_split (fun sq : SubQuery => decide (8 ≤ sq.priority))
      (fun sq : SubQuery => decide (sq.priority < 8))
      (fun sq => decide_lt_eight sq.priority) (decompose_query q fo.decompResp)
    constructor
    · simp [finishRun]
    · split
      · simp only [finishRun, List.append_nil, List.length_append, List.length_map]
        omega
      · simp only [finishRun, List.length_append, List.length_map]
        omega

/-- C6 (amended): the standalone extractor in `visualization_extractor.py`
does truncate to the maxima, defaults missing keys to empty arrays, and maps a
non-object or unparseable result to the empty result — but (see the
counterexample) the in-pipeline extractor in `flow.py` applies no truncation. -/
theorem claim6_amended (resp : Except Unit (Except Unit JVal)) (mt mg : Nat) :
    vlen (VizExtractor.extract_visualizations resp mt mg).tables ≤ mt ∧
    vlen (VizExtractor.extract_visualizations resp mt mg).graphs ≤ mg ∧
    (∀ v, vIsObj v = false →
      VizExtractor.extract_visualizations (.ok (.ok v)) mt mg = ⟨.jarr [], .jarr []⟩) ∧
    VizExtractor.extract_visualizations (.ok (.ok (.jobj []))) mt mg =
      ⟨.jarr [], .jarr []⟩ ∧
    VizExtractor.extract_visualizations (.ok (.error ())) mt mg =
      ⟨.jarr [], .jarr []⟩ := by
  refine ⟨?_, ?_, ?_, ?_, rfl⟩
  · rcases resp with e | r
    · simp [VizExtractor.extract_visualizations, vlen]
    · rcases r with e | v
      · simp [VizExtractor.extract_visualizations, vlen]
      · cases v <;>
          simp only [VizExtractor.extract_visualizations, vlen] <;>
          try simp
        rename_i kvs
        cases h1 : jget "tables" (.jarr []) kvs <;>
          cases h2 : jget "graphs" (.jarr []) kvs <;>
          simp [pySlice, vlen, List.length_take_le]
  · rcases resp with e | r
    · simp [VizExtractor.extract_visualizations, vlen]
    · rcases r with e | v
      · simp [VizExtractor.extract_visualizations, vlen]
      · cases v <;>
          simp only [VizExtractor.extract_visualizations, vlen] <;>
          try simp
        rename_i kvs
        cases h1 : jget "tables" (.jarr []) kvs <;>
          cases h2 : jget "graphs" (.jarr []) kvs <;>
          simp [pySlice, vlen, List.length_take_le]
  · intro v hv
    cases v <;> simp_all [VizExtractor.extract_visualizations, vIsObj]
  · simp [VizExtractor.extract_visualizations, jget, jlookup, pySlice]

/-- Witness for C6 (amended): the standalone extractor truncates five tables
to the bound 2, and maps a string result to the empty result. -/
theorem claim6_amended_witness :
    vlen (VizExtractor.extract_visualizations (.ok (.ok fiveTablesObj)) 2 3).tables ≤ 2 ∧
    VizExtractor.extract_visualizations (.ok (.ok (.jstr "x".data))) 2 3 =
      ⟨.jarr [], .jarr []⟩ := by
  have h1 := claim6_amended (.ok (.ok fiveTablesObj)) 2 3
  have h2 := claim6_amended (.ok (.ok (.jstr "x".data))) 2 3
  exact ⟨h1.1, h2.2.2.1 (.jstr "x".data) (by decide)⟩

/-- C6 (counterexample): a pipeline run whose flow-level extraction yields five
tables returns all five in the final result even with `max_tables = 2` — the
in-pipeline extractor never truncates, and `main.process_query` only replaces
an **empty** tables value. -/
theorem claim6_counterexample :
    vlen (jvGet "tables"
      (MainMod.process_query "what is X".data (.ok "what is X".data) fiveTablesOracles
        (.error ()) (some ⟨true, true, 2, 3⟩)).result) = 5 ∧ (5 : Nat) ≠ 2 := by
  refine ⟨by decide, by decide⟩

/-- C8 (counterexample): the top-level result of a concrete successful run has
exactly the six keys `status, query, response, metadata, graphs, tables` — the
claimed `sub_queries` and `qa_pairs` fields are absent. -/
theorem claim8_counterexample :
    jkeys (MainMod.process_query "what is X".data (.ok "what is X".data) quietOracles
        (.error ()) none).result =
      ["status", "query", "response", "metadata", "graphs", "tables"] ∧
    "sub_queries" ∉ jkeys (MainMod.process_query "what is X".data (.ok "what is X".data)
        quietOracles (.error ()) none).result ∧
    "qa_pairs" ∉ jkeys (MainMod.process_query "what is X".data (.ok "what is X".data)
        quietOracles (.error ()) none).result := by
  refine ⟨by decide, by decide, by decide⟩

/-- C8 (amended): for every non-rejected query the top-level result is an
object with exactly the fields `status, query, response, metadata, graphs,
tables` (no `sub_queries`, no `qa_pairs`), and its status is `"success"`. -/
theorem claim8_amended (ui : Str) (sr : Except Unit Str) (fo : FlowOracles)
    (ve : Except Unit (Except Unit JVal)) (opts : Option MainMod.VizOptions)
    (h : (MainMod.check_query_safety ui sr).is_safe = true) :
    jkeys (MainMod.process_query ui sr fo ve opts).result =
      ["status", "query", "response", "metadata", "graphs", "tables"] ∧
    jvGet "status" (MainMod.process_query ui sr fo ve opts).result =
      .jstr "success".data := by
  simp [MainMod.process_query, h, jkeys, jvGet, jget, jlookup]

/-- Witness for C8 (amended) at a concrete safe input. -/
theorem claim8_amended_witness :
    jkeys (MainMod.process_query "q".data (.ok "q".data) quietOracles
        (.error ()) none).result =
      ["status", "query", "response", "metadata", "graphs", "tables"] ∧
    jvGet "status" (MainMod.process_query "q".data (.ok "q".data) quietOracles
        (.error ()) none).result = .jstr "success".data :=
  claim8_amended "q".data (.ok "q".data) quietOracles (.error ()) none (by decide)

/-- C10 (confirmed): when the safety Completion Service call raises,
`check_query_safety` marks the input safe and returns it unchanged, and
`main.process_query` runs the agent pipeline on the unrefined input with a
success status rather than rejecting it. -/
theorem claim10_theorem (ui : Str) (fo : FlowOracles)
    (ve : Except Unit (Except Unit JVal)) (opts : Option MainMod.VizOptions) :
    MainMod.check_query_safety ui (.error ()) =
      { is_safe := true, refined_query := some ui } ∧
    (MainMod.process_query ui (.error ()) fo ve opts).loopQuery = some ui ∧
    jvGet "status" (MainMod.process_query ui (.error ()) fo ve opts).result =
      .jstr "success".data := by
  refine ⟨rfl, ?_, ?_⟩
  · simp [MainMod.process_query, MainMod.check_query_safety]
  · simp [MainMod.process_query, MainMod.check_query_safety, jvGet, jget, jlookup]

/-- Witness for C9 at a concrete all-invalid input. -/
theorem claim9_witness :
    (merge_responses [("q".data, ([] : Str))]
      (.ok "m".data) (.ok "r".data) (.ok "v".data)).response = apologyMsg ∧
    (merge_responses [("q".data, ([] : Str))]
      (.ok "m".data) (.ok "r".data) (.ok "v".data)).synthInput = none :=
  claim9_theorem [("q".data, ([] : Str))] (.ok "m".data) (.ok "r".data) (.ok "v".data)
    (by decide)

end FinAgent
